import Mathlib

/-!
# Verification of the Ray / Tune tutorial notebooks

Shallow embedding of the glue code in the tutorial notebooks
(`exercises/colab01-03.ipynb`, `tune_exercises`, and the two Tune tutorial
notebooks) together with proofs of the self-check properties the notebooks
assert.  NumPy float matrices are modelled as functions into `ℚ`,
configuration dictionaries as association lists, and the external Ray
library's behaviour (remote execution, the trial coordinator) is modelled
from the specification where noted.
-/

set_option maxRecDepth 8000
set_option linter.unusedVariables false

namespace RayTutorial

/-! ## Exercise 2 of colab01-03: the four-stage data pipeline

`load_data` ignores its filename argument and returns `np.ones((1000, 100))`;
`normalize_data` subtracts per-column means; `extract_features` horizontally
stacks the normalized data with its elementwise square; `compute_loss` sums
the squared differences between `features · ones(dim)` and `ones(num_data)`.
The `time.sleep` calls are timing-only side effects and have no value-level
content. -/

/-- `load_data(filename)`: returns `np.ones((1000, 100))` (the filename is
ignored by the source). -/
def load_data (_filename : String) : Fin 1000 → Fin 100 → ℚ :=
  fun _ _ => 1

/-- The per-column mean `np.mean(data, axis=0) j`. -/
def colMean (data : Fin 1000 → Fin 100 → ℚ) (j : Fin 100) : ℚ :=
  (∑ i : Fin 1000, data i j) / 1000

/-- `normalize_data(data)`: `data - np.mean(data, axis=0)`. -/
def normalize_data (data : Fin 1000 → Fin 100 → ℚ) : Fin 1000 → Fin 100 → ℚ :=
  fun i j => data i j - colMean data j

/-- `extract_features(normalized_data)`: `np.hstack([nd, nd ** 2])`, a
`1000 × 200` matrix whose first 100 columns are `nd` and whose last 100
columns are the elementwise square of `nd`. -/
def extract_features (nd : Fin 1000 → Fin 100 → ℚ) : Fin 1000 → Fin 200 → ℚ :=
  fun i j =>
    if h : (j : ℕ) < 100 then nd i ⟨j, h⟩
    else (nd i ⟨(j : ℕ) - 100, by omega⟩) ^ 2

/-- `compute_loss(features)`: `np.sum((np.dot(features, np.ones(dim)) -
np.ones(num_data)) ** 2)`. -/
def compute_loss (features : Fin 1000 → Fin 200 → ℚ) : ℚ :=
  ∑ i : Fin 1000, ((∑ j : Fin 200, features i j * 1) - 1) ^ 2

/-- One pass of the loop body: `compute_loss(extract_features(normalize_data(
load_data(filename))))`. -/
def pipeline (filename : String) : ℚ :=
  compute_loss (extract_features (normalize_data (load_data filename)))

/-- The `losses` list accumulated by the loop over
`['file1', 'file2', 'file3', 'file4']`. -/
def losses : List ℚ :=
  (["file1", "file2", "file3", "file4"].map pipeline)

/-- `loss = sum(losses)`. -/
def loss : ℚ := losses.sum

theorem normalize_ones_eq_zero (filename : String) (i : Fin 1000) (j : Fin 100) :
    normalize_data (load_data filename) i j = 0 := by
  have hmean : colMean (load_data filename) j = 1 := by
    unfold colMean load_data
    rw [Finset.sum_const, Finset.card_univ, Fintype.card_fin, nsmul_eq_mul]
    norm_num
  unfold normalize_data
  rw [hmean]
  simp [load_data]

theorem pipeline_eq (filename : String) : pipeline filename = 1000 := by
  have hfeat : ∀ (i : Fin 1000) (j : Fin 200),
      extract_features (normalize_data (load_data filename)) i j = 0 := by
    intro i j
    by_cases h : (j : ℕ) < 100 <;>
      simp [extract_features, h, normalize_ones_eq_zero]
  have hdot : ∀ i : Fin 1000,
      (∑ j : Fin 200, extract_features (normalize_data (load_data filename)) i j * 1) = 0 := by
    intro i
    refine Finset.sum_eq_zero fun j _ => ?_
    rw [hfeat i j, zero_mul]
  calc pipeline filename
      = ∑ i : Fin 1000, ((0 : ℚ) - 1) ^ 2 := by
        unfold pipeline compute_loss
        exact Finset.sum_congr rfl fun i _ => by rw [hdot i]
    _ = 1000 := by
        rw [Finset.sum_const, Finset.card_univ, Fintype.card_fin, nsmul_eq_mul]
        norm_num

/-! ## Exercise 1 of colab01-03: simple parallelization

`slow_function(i)` sleeps one second and returns `i`.  The loop submits the
four tasks `slow_function.remote(0) .. slow_function.remote(3)` and retrieves
`results = ray.get([...])`.  Ray itself is external; its task execution and
`ray.get` are modelled from the spec ("a blocking resolve-all-futures
operation" over handles in submission order, tasks running in an arbitrary
finish order). -/

/-- `slow_function(i)`: sleeps one second (a timing-only effect, not
modelled) and returns `i`. -/
def slow_function (i : ℕ) : ℕ := i

/-- Association-list lookup, modelling lookup in a Python dictionary or in
the Ray object store: the value bound to the first matching key, if any. -/
def assocLookup {κ α : Type} [DecidableEq κ] (key : κ) : List (κ × α) → Option α
  | [] => none
  | (k, v) :: rest => if key = k then some v else assocLookup key rest

/-- Modelled from the spec: the external Ray runtime executes the submitted
tasks in some arbitrary finish `order` (a permutation of the submitted task
ids), recording each task's result in an object store keyed by task id. -/
def executeInOrder (order : List ℕ) : List (ℕ × ℕ) :=
  order.map fun i => (i, slow_function i)

/-- Modelled from the spec: `ray.get` on a list of object ids blocks and
resolves every handle, returning the values in the order the handles were
submitted (`none` if some handle was never executed). -/
def rayGet (store : List (ℕ × ℕ)) : List ℕ → Option (List ℕ)
  | [] => some []
  | h :: t =>
    match assocLookup h store, rayGet store t with
    | some v, some vs => some (v :: vs)
    | _, _ => none

theorem lookup_executeInOrder (order : List ℕ) (h : ℕ) :
    assocLookup h (executeInOrder order) = if h ∈ order then some (slow_function h) else none := by
  induction order with
  | nil => simp [executeInOrder, assocLookup]
  | cons a l ih =>
    have hstep : assocLookup h (executeInOrder (a :: l))
        = if h = a then some (slow_function a) else assocLookup h (executeInOrder l) := rfl
    rw [hstep, ih]
    by_cases hha : h = a
    · subst hha
      simp
    · simp [hha]

/-! ## Exercise 3 of colab01-03: nested parallelism

`compute_gradient(data, current_model)` sleeps and returns `1`;
`train_model(hyperparameters)` starts from `current_model = 0` and, for ten
iterations, adds `sum([compute_gradient(j, current_model) for j in range(2)])`
to the current model, returning the final model. -/

/-- A configuration dictionary: a mapping from hyperparameter names to
rational values. -/
abbrev Config := List (String × ℚ)

/-- `config.get(key, default)` on a Python dict: the bound value if the key
is present, the default otherwise (never raises). -/
def Config.getD (config : Config) (key : String) (default : ℚ) : ℚ :=
  (assocLookup key config).getD default

/-- `compute_gradient(data, current_model)`: sleeps 0.03 seconds (timing
only) and returns `1`. -/
def compute_gradient (data : ℕ) (current_model : ℤ) : ℤ := 1

/-- `train_model(hyperparameters)`: ten iterations, each adding
`sum([compute_gradient(j, current_model) for j in range(2)])` to the model
started at `0`; the hyperparameters dictionary is never read. -/
def train_model (hyperparameters : Config) : ℤ :=
  (List.range 10).foldl
    (fun current_model _ =>
      current_model + ((List.range 2).map fun j => compute_gradient j current_model).sum)
    0

/-- The three hyperparameter experiments run by the driver loop. -/
def hyperparameter_experiments : List Config :=
  [[("learning_rate", 0.1), ("batch_size", 100)],
   [("learning_rate", 0.01), ("batch_size", 100)],
   [("learning_rate", 0.001), ("batch_size", 100)]]

/-! ## The Tune tutorial notebooks

The PyTorch pieces (`ConvNet`, `get_data_loaders`, `train`, `test`,
`optim.SGD`, `torch.save`/`torch.load`) are external-library collaborators;
following the spec they are modelled minimally: a model is a vector of
rational weights, a data loader an opaque tag, and the filesystem an
association list from paths to saved state dicts. -/

/-- Modelled from the spec: `ConvNet`, the external model class; its
parameters/state dict are abstracted as a vector of rational weights. -/
structure ConvNet where
  weights : List ℚ
deriving DecidableEq

/-- `ConvNet()`: a freshly constructed model. -/
def ConvNet.init : ConvNet := ⟨[0, 0, 0, 0]⟩

/-- `model.parameters()`. -/
def ConvNet.parameters (model : ConvNet) : List ℚ := model.weights

/-- `model.state_dict()`. -/
def ConvNet.state_dict (model : ConvNet) : List ℚ := model.weights

/-- `model.load_state_dict(sd)`: replaces the model's weights by `sd`. -/
def ConvNet.load_state_dict (model : ConvNet) (sd : List ℚ) : ConvNet := ⟨sd⟩

/-- Modelled from the spec: a data loader from `get_data_loaders()`, opaque
to every claim; only its identity matters. -/
structure DataLoader where
  tag : ℕ
deriving DecidableEq

/-- `get_data_loaders()`: returns the `(train_loader, test_loader)` pair. -/
def get_data_loaders : DataLoader × DataLoader := (⟨0⟩, ⟨1⟩)

/-- `optim.SGD(params, lr=…, momentum=…)`: an SGD optimizer over the given
parameters with the given hyperparameters. -/
structure SGD where
  params : List ℚ
  lr : ℚ
  momentum : ℚ
deriving DecidableEq

/-- The filesystem seen by `torch.save`/`torch.load`: paths mapped to the
saved state dicts, most recent write first. -/
abbrev FileSystem := List (String × List ℚ)

/-- `os.path.join(dir, file)`. -/
def joinPath (dir file : String) : String := dir ++ "/" ++ file

/-- `torch.save(obj, path)`: writes `obj` at `path`. -/
def torchSave (fs : FileSystem) (path : String) (obj : List ℚ) : FileSystem :=
  (path, obj) :: fs

/-- `torch.load(path)`: the object saved at `path`, or a
`FileNotFoundError` if nothing was saved there. -/
def torchLoad (fs : FileSystem) (path : String) : Except String (List ℚ) :=
  match assocLookup path fs with
  | some obj => Except.ok obj
  | none => Except.error ("FileNotFoundError: " ++ path)

/-! ### The class-based trainable `PytorchTrainble` (population-based
training notebook)

Its instance state after `_setup` holds the device, the two data loaders,
the model and the optimizer; `_save`, `_restore` and `reset_config` are
translated field by field from the source (the class name's spelling is the
source's). -/

structure PytorchTrainble where
  device : String
  train_loader : DataLoader
  test_loader : DataLoader
  model : ConvNet
  optimizer : SGD
deriving DecidableEq

/-- `PytorchTrainble._setup(config)`: device `"cpu"`, data loaders from
`get_data_loaders()`, a fresh `ConvNet`, and an SGD optimizer over the
model's parameters with `lr = config.get("lr", 0.01)` and
`momentum = config.get("momentum", 0.9)`. -/
def PytorchTrainble._setup (config : Config) : PytorchTrainble :=
  let loaders := get_data_loaders
  let model := ConvNet.init
  { device := "cpu"
    train_loader := loaders.1
    test_loader := loaders.2
    model := model
    optimizer :=
      { params := model.parameters
        lr := Config.getD config "lr" 0.01
        momentum := Config.getD config "momentum" 0.9 } }

/-- `PytorchTrainble._save(checkpoint_dir)`: saves the model's state dict to
`os.path.join(checkpoint_dir, "model.pth")` and returns that path. -/
def PytorchTrainble._save (self : PytorchTrainble) (checkpoint_dir : String)
    (fs : FileSystem) : String × FileSystem :=
  let checkpoint_path := joinPath checkpoint_dir "model.pth"
  (checkpoint_path, torchSave fs checkpoint_path self.model.state_dict)

/-- `PytorchTrainble._restore(checkpoint_path)`: loads the state dict saved
at `checkpoint_path` into the model. -/
def PytorchTrainble._restore (self : PytorchTrainble) (checkpoint_path : String)
    (fs : FileSystem) : Except String PytorchTrainble :=
  (torchLoad fs checkpoint_path).map fun sd =>
    { self with model := self.model.load_state_dict sd }

/-- `PytorchTrainble.reset_config(new_config)`: deletes the optimizer,
builds a new SGD optimizer over the (unchanged) model's parameters with the
new configuration's `lr`/`momentum` (same `.get` defaults as `_setup`), and
returns `True`. -/
def PytorchTrainble.reset_config (self : PytorchTrainble) (new_config : Config) :
    PytorchTrainble × Bool :=
  ({ self with
      optimizer :=
        { params := self.model.parameters
          lr := Config.getD new_config "lr" 0.01
          momentum := Config.getD new_config "momentum" 0.9 } }, true)

/-! ### The function-form trainable `train_mnist` (ASHA/HyperOpt notebook)

`train_mnist(config)` builds a model and data loaders, constructs an SGD
optimizer indexing `config["lr"]` and `config["momentum"]` directly (a
`KeyError` propagates — there is no local handler in the body), then runs a
20-iteration train/test loop.  The external `train`/`test` functions are
abstracted as arguments `trainStep`/`testAcc`; the `torch.save` every fifth
iteration and the `tune.track` TODO are I/O side effects without value-level
content and are elided. -/

/-- `config[key]` on a Python dict: the bound value, or a `KeyError`. -/
def dictIndex (config : Config) (key : String) : Except String ℚ :=
  match assocLookup key config with
  | some v => Except.ok v
  | none => Except.error ("KeyError: " ++ key)

/-- `train_mnist(config)` (the notebook's function-form trainable). -/
def train_mnist (trainStep : ConvNet → SGD → ConvNet) (testAcc : ConvNet → ℚ)
    (config : Config) : Except String Unit := do
  let model := ConvNet.init
  let _loaders := get_data_loaders
  let lr ← dictIndex config "lr"
  let momentum ← dictIndex config "momentum"
  let optimizer : SGD := { params := model.parameters, lr := lr, momentum := momentum }
  let _final := (List.range 20).foldl (fun m _ => trainStep m optimizer) model
  pure ()

/-- `True` iff the trainable call returned without raising. -/
def trialSucceeded (r : Except String Unit) : Bool :=
  match r with
  | Except.ok _ => true
  | Except.error _ => false

/-- The recorded outcome of one trial: terminated normally, or errored with
the per-trial error artifact. -/
inductive TrialResult where
  | terminated : TrialResult
  | errored : String → TrialResult
deriving DecidableEq

/-- Modelled from the spec: the external coordinator records one trial's
outcome — a normal termination, or the raised exception captured as a
per-trial error artifact. -/
def recordTrial (trainable : Config → Except String Unit) (config : Config) :
    TrialResult :=
  match trainable config with
  | Except.ok _ => TrialResult.terminated
  | Except.error e => TrialResult.errored e

/-- Modelled from the spec: the external coordinator runs every sampled
configuration as an independent trial and records each outcome. -/
def runCoordinator (trainable : Config → Except String Unit)
    (configs : List Config) : List TrialResult :=
  configs.map (recordTrial trainable)

/-! ### Grid enumeration and the stop condition (external library
behaviour, modelled from the spec) -/

/-- Modelled from the spec: `tune.grid_search` dimensions are expanded by
the external library into the cross-product over all grid dimensions, one
configuration per combination of grid values. -/
def gridEnumerate {V : Type} : List (String × List V) → List (List (String × V))
  | [] => [[]]
  | (name, vals) :: rest =>
    vals.flatMap fun v => (gridEnumerate rest).map fun c => (name, v) :: c

/-- Modelled from the spec: `tune.run` drives one trial's step loop,
incrementing `training_iteration` each step and stopping the trial as soon
as the `stop` threshold on `training_iteration` is reached; returns the
trial's final `training_iteration`. -/
def runTrial (stop it : ℕ) : ℕ :=
  if stop ≤ it then it else runTrial stop (it + 1)
termination_by stop - it
decreasing_by omega

/-- Modelled from the spec: a run with `num_samples` sampled configurations
executes one trial per configuration (starting at iteration 0) and collects
each trial's final `training_iteration`. -/
def pbtRunStops (configs : List Config) (stop : ℕ) : List ℕ :=
  configs.map fun _ => runTrial stop 0

/-! ## Helper lemmas -/

theorem gridEnumerate_length {V : Type} (dims : List (String × List V)) :
    (gridEnumerate dims).length = (dims.map fun d => d.2.length).prod := by
  induction dims with
  | nil => simp [gridEnumerate]
  | cons d rest ih =>
    obtain ⟨name, vals⟩ := d
    have hsum : ∀ vs : List V,
        (vs.flatMap fun v => (gridEnumerate rest).map fun c => (name, v) :: c).length
          = vs.length * (gridEnumerate rest).length := by
      intro vs
      induction vs with
      | nil => simp
      | cons v vt ihv =>
        simp [ihv]
        ring
    simp [gridEnumerate, hsum, ih]

theorem runTrial_eq (stop : ℕ) : ∀ it, it ≤ stop → runTrial stop it = stop := by
  have key : ∀ n it, stop - it = n → it ≤ stop → runTrial stop it = stop := by
    intro n
    induction n with
    | zero =>
      intro it h1 h2
      have hit : it = stop := by omega
      subst hit
      rw [runTrial]
      simp
    | succ k ih =>
      intro it h1 h2
      rw [runTrial]
      by_cases hle : stop ≤ it
      · simp only [if_pos hle]
        omega
      · simp only [if_neg hle]
        exact ih (it + 1) (by omega) (by omega)
  exact fun it h => key (stop - it) it rfl h

/-! ## The claims -/

/-- **C1**: for each of the four input filenames the pipeline
`compute_loss ∘ extract_features ∘ normalize_data ∘ load_data` yields a loss
of exactly 1000, and the sum of the four losses is exactly 4000. -/
theorem c1_pipeline_loss_4000 :
    (∀ filename : String, pipeline filename = 1000) ∧ loss = 4000 := by
  refine ⟨pipeline_eq, ?_⟩
  simp [loss, losses, pipeline_eq]
  norm_num

/-- **C2**: grid enumeration is the cross-product over all grid dimensions
(one configuration per combination of grid values); two five-valued
dimensions (`lr` and `momentum`) yield exactly 25 configurations, and four
three-valued dimensions yield exactly 81. -/
theorem c2_grid_search_counts {V : Type} (lrVals momVals v1 v2 v3 v4 : List V)
    (hlr : lrVals.length = 5) (hmom : momVals.length = 5)
    (h1 : v1.length = 3) (h2 : v2.length = 3) (h3 : v3.length = 3)
    (h4 : v4.length = 3) :
    (∀ dims : List (String × List V),
        (gridEnumerate dims).length = (dims.map fun d => d.2.length).prod)
    ∧ (gridEnumerate [("lr", lrVals), ("momentum", momVals)]).length = 25
    ∧ (gridEnumerate [("variable1", v1), ("variable2", v2), ("variable3", v3),
        ("variable4", v4)]).length = 81 := by
  refine ⟨gridEnumerate_length, ?_, ?_⟩ <;>
    simp [gridEnumerate_length, hlr, hmom, h1, h2, h3, h4]

/-- Witness for C2 at concrete five-valued and three-valued grids. -/
theorem c2_grid_search_counts_witness :
    (gridEnumerate [("lr", [(0.001 : ℚ), 0.1, 0.3, 0.6, 0.9]),
        ("momentum", [(0.001 : ℚ), 0.1, 0.3, 0.6, 0.9])]).length = 25
    ∧ (gridEnumerate [("variable1", [(1 : ℚ), 2, 3]), ("variable2", [(1 : ℚ), 2, 3]),
        ("variable3", [(1 : ℚ), 2, 3]), ("variable4", [(1 : ℚ), 2, 3])]).length = 81 :=
  ⟨(c2_grid_search_counts [(0.001 : ℚ), 0.1, 0.3, 0.6, 0.9] [(0.001 : ℚ), 0.1, 0.3, 0.6, 0.9]
      [(1 : ℚ), 2, 3] [(1 : ℚ), 2, 3] [(1 : ℚ), 2, 3] [(1 : ℚ), 2, 3]
      rfl rfl rfl rfl rfl rfl).2.1,
   (c2_grid_search_counts [(0.001 : ℚ), 0.1, 0.3, 0.6, 0.9] [(0.001 : ℚ), 0.1, 0.3, 0.6, 0.9]
      [(1 : ℚ), 2, 3] [(1 : ℚ), 2, 3] [(1 : ℚ), 2, 3] [(1 : ℚ), 2, 3]
      rfl rfl rfl rfl rfl rfl).2.2⟩

/-- **C3**: whatever order the four parallel tasks finish in, resolving the
list of handles returned by the four submissions `slow_function.remote(0)`
.. `slow_function.remote(3)` yields exactly `[0, 1, 2, 3]`, in submission
order. -/
theorem c3_ray_get_submission_order (order : List ℕ)
    (hperm : order.Perm (List.range 4)) :
    rayGet (executeInOrder order) (List.range 4) = some [0, 1, 2, 3] := by
  have hl : ∀ n, n ∈ List.range 4 → assocLookup n (executeInOrder order) = some n := by
    intro n hn
    rw [lookup_executeInOrder, if_pos (hperm.mem_iff.mpr hn)]
    rfl
  have e0 : assocLookup 0 (executeInOrder order) = some 0 := hl 0 (by decide)
  have e1 : assocLookup 1 (executeInOrder order) = some 1 := hl 1 (by decide)
  have e2 : assocLookup 2 (executeInOrder order) = some 2 := hl 2 (by decide)
  have e3 : assocLookup 3 (executeInOrder order) = some 3 := hl 3 (by decide)
  have hr : List.range 4 = [0, 1, 2, 3] := rfl
  rw [hr]
  simp [rayGet, e0, e1, e2, e3]

/-- Witness for C3 at the concrete finish order `[2, 0, 3, 1]`. -/
theorem c3_ray_get_submission_order_witness :
    rayGet (executeInOrder [2, 0, 3, 1]) (List.range 4) = some [0, 1, 2, 3] :=
  c3_ray_get_submission_order [2, 0, 3, 1] (by decide)

/-- **C5**: a population-based-training run with four sampled configurations
and the stop condition `training_iteration = 100` terminates every one of
the four trials at exactly 100 training iterations. -/
theorem c5_pbt_trials_stop_at_100 (configs : List Config)
    (h4 : configs.length = 4) :
    pbtRunStops configs 100 = [100, 100, 100, 100] := by
  have h := runTrial_eq 100 0 (by omega)
  rcases configs with _ | ⟨a, _ | ⟨b, _ | ⟨c, _ | ⟨d, rest⟩⟩⟩⟩ <;>
    simp_all [pbtRunStops]

/-- Witness for C5 at four concrete sampled configurations. -/
theorem c5_pbt_trials_stop_at_100_witness :
    pbtRunStops [[("lr", (1 : ℚ) / 2), ("momentum", (1 : ℚ) / 2)], [], [],
      [("lr", (3 : ℚ) / 4)]] 100 = [100, 100, 100, 100] :=
  c5_pbt_trials_stop_at_100 _ rfl

/-- **C6**: `reset_config` always returns `True` and replaces only the
optimizer (a new SGD over the current model's parameters with the new
configuration's `lr` and `momentum`), leaving the model, its weights, the
device and the two data loaders unchanged. -/
theorem c6_reset_config_frame (s : PytorchTrainble) (new_config : Config) :
    (s.reset_config new_config).2 = true
    ∧ (s.reset_config new_config).1.model = s.model
    ∧ (s.reset_config new_config).1.device = s.device
    ∧ (s.reset_config new_config).1.train_loader = s.train_loader
    ∧ (s.reset_config new_config).1.test_loader = s.test_loader
    ∧ (s.reset_config new_config).1.optimizer =
        { params := s.model.parameters
          lr := Config.getD new_config "lr" 0.01
          momentum := Config.getD new_config "momentum" 0.9 } :=
  ⟨rfl, rfl, rfl, rfl, rfl, rfl⟩

/-- **C7**: an exception raised inside `train_mnist` propagates out of the
trainable (no local handler), is recorded by the coordinator as that trial's
error artifact, and every other trial's recorded outcome is exactly what
running that trial alone produces. -/
theorem c7_trial_error_isolated (trainStep : ConvNet → SGD → ConvNet)
    (testAcc : ConvNet → ℚ) (configs : List Config) (i : ℕ) (cfg : Config)
    (e : String) (hcfg : configs[i]? = some cfg)
    (herr : train_mnist trainStep testAcc cfg = Except.error e) :
    (runCoordinator (train_mnist trainStep testAcc) configs)[i]? =
      some (TrialResult.errored e)
    ∧ ∀ (j : ℕ) (c : Config), configs[j]? = some c →
        (runCoordinator (train_mnist trainStep testAcc) configs)[j]? =
          some (recordTrial (train_mnist trainStep testAcc) c) := by
  constructor
  · simp [runCoordinator, hcfg, recordTrial, herr]
  · intro j c hc
    simp [runCoordinator, hc]

/-- Witness for C7: of two concrete trials, the first (missing `"lr"`)
errors with a `KeyError` artifact while the second is recorded from its own
run alone. -/
theorem c7_trial_error_isolated_witness :
    (runCoordinator (train_mnist (fun m _ => m) (fun _ => 0))
        [[("momentum", (9 : ℚ) / 10)],
         [("lr", (1 : ℚ) / 2), ("momentum", (9 : ℚ) / 10)]])[0]? =
      some (TrialResult.errored "KeyError: lr")
    ∧ (runCoordinator (train_mnist (fun m _ => m) (fun _ => 0))
        [[("momentum", (9 : ℚ) / 10)],
         [("lr", (1 : ℚ) / 2), ("momentum", (9 : ℚ) / 10)]])[1]? =
      some (recordTrial (train_mnist (fun m _ => m) (fun _ => 0))
        [("lr", (1 : ℚ) / 2), ("momentum", (9 : ℚ) / 10)]) :=
  ⟨(c7_trial_error_isolated (fun m _ => m) (fun _ => 0)
      [[("momentum", (9 : ℚ) / 10)], [("lr", (1 : ℚ) / 2), ("momentum", (9 : ℚ) / 10)]]
      0 [("momentum", (9 : ℚ) / 10)] "KeyError: lr" rfl rfl).1,
   (c7_trial_error_isolated (fun m _ => m) (fun _ => 0)
      [[("momentum", (9 : ℚ) / 10)], [("lr", (1 : ℚ) / 2), ("momentum", (9 : ℚ) / 10)]]
      0 [("momentum", (9 : ℚ) / 10)] "KeyError: lr" rfl rfl).2
      1 [("lr", (1 : ℚ) / 2), ("momentum", (9 : ℚ) / 10)] rfl⟩

/-- **C8**: `_save(checkpoint_dir)` returns `<checkpoint_dir>/model.pth`
holding the model's state dict, and a subsequent `_restore` on that path
loads a state dict equal to the one saved, leaving the model's parameters
identical to their values at save time. -/
theorem c8_save_restore_roundtrip (s t : PytorchTrainble)
    (checkpoint_dir : String) (fs : FileSystem) :
    (s._save checkpoint_dir fs).1 = checkpoint_dir ++ "/model.pth"
    ∧ torchLoad (s._save checkpoint_dir fs).2 (s._save checkpoint_dir fs).1 =
        Except.ok s.model.state_dict
    ∧ t._restore (s._save checkpoint_dir fs).1 (s._save checkpoint_dir fs).2 =
        Except.ok { t with model := t.model.load_state_dict s.model.state_dict }
    ∧ (t.model.load_state_dict s.model.state_dict).state_dict =
        s.model.state_dict := by
  refine ⟨?_, ?_, ?_, rfl⟩
  · show joinPath checkpoint_dir "model.pth" = checkpoint_dir ++ "/model.pth"
    unfold joinPath
    rw [String.append_assoc]
    rfl
  · simp [PytorchTrainble._save, torchSave, torchLoad, assocLookup]
  · simp [PytorchTrainble._save, PytorchTrainble._restore, torchSave, torchLoad,
      assocLookup, Except.map]

/-- **C9**: `train_model` returns exactly 20 for every hyperparameters
argument (each of 10 iterations adds a total gradient of 2), the three
driver-loop experiments all report 20, and any two calls with different
hyperparameters return equal results. -/
theorem c9_train_model_constant :
    (∀ h : Config, train_model h = 20)
    ∧ hyperparameter_experiments.map train_model = [20, 20, 20]
    ∧ ∀ h₁ h₂ : Config, train_model h₁ = train_model h₂ :=
  ⟨fun _ => rfl, rfl, fun _ _ => rfl⟩

/-- **C10**: the class-based trainable reads `"lr"` and `"momentum"` with
defaults 0.01 and 0.9 in both `_setup` and `reset_config`, so it succeeds on
every configuration (including the empty one), whereas the function-form
`train_mnist` — which indexes `config["lr"]` and `config["momentum"]`
directly — succeeds exactly when both keys are present. -/
theorem c10_class_defaults_function_keyerror (config : Config)
    (s : PytorchTrainble) (trainStep : ConvNet → SGD → ConvNet)
    (testAcc : ConvNet → ℚ) :
    (PytorchTrainble._setup config).optimizer.lr = Config.getD config "lr" 0.01
    ∧ (PytorchTrainble._setup config).optimizer.momentum =
        Config.getD config "momentum" 0.9
    ∧ (PytorchTrainble._setup []).optimizer.lr = 0.01
    ∧ (PytorchTrainble._setup []).optimizer.momentum = 0.9
    ∧ (s.reset_config config).2 = true
    ∧ (s.reset_config []).1.optimizer.lr = 0.01
    ∧ (s.reset_config []).1.optimizer.momentum = 0.9
    ∧ trialSucceeded (train_mnist trainStep testAcc config) =
        ((assocLookup "lr" config).isSome && (assocLookup "momentum" config).isSome) := by
  refine ⟨rfl, rfl, rfl, rfl, rfl, rfl, rfl, ?_⟩
  cases hl : assocLookup "lr" config <;> cases hm : assocLookup "momentum" config <;>
    simp [train_mnist, dictIndex, hl, hm, trialSucceeded, Bind.bind, Except.bind,
      Pure.pure, Except.pure]

end RayTutorial
